import Mathlib

/-!
Verification of the WhatsApp gateway server (src/wha_api/index.js).

The file embeds the Socket.IO request handlers (send_message, send_pdf,
check_status), the Baileys connection.update handler, the messages.upsert
handler, and the session lifecycle as executable Lean definitions, then
proves properties of the specification against them.

Modelling conventions:
- JavaScript nullable / possibly-undefined values become Option.
- JavaScript string truthiness (undefined, null and the empty string are
  falsy) is made explicit through jsTruthy.
- The asynchronous handlers are modelled as pure functions from their
  inputs plus the outcome of the raced network call to the ordered list
  of observable effects (emits, network dispatches, callback replies).
- A JavaScript exception that escapes a handler is modelled with Except.
-/

namespace WhaApi

/-- JavaScript truthiness test on a possibly-undefined string: undefined
and the empty string are falsy, any other string is truthy. -/
def jsTruthy : Option String → Option String
  | some s => if s.isEmpty then none else some s
  | none => none

/-- Target of a Socket.IO emit: socket.emit reaches the requesting client
only, io.emit reaches every connected client. -/
inductive EmitTarget where
  | requester
  | allClients
deriving DecidableEq

/-- Result object passed to a request callback: success carries the
human-readable message field, failure carries the error field. -/
inductive SendResult where
  | success (msg : String)
  | failure (err : String)
deriving DecidableEq

/-- Observable effect of a send_message / send_pdf handler run, in
program order: a keep_alive emit (with its target), a dispatch of
globalSocket.sendMessage to the network layer (with the formatted jid),
or an invocation of the request callback. -/
inductive Effect where
  | keepAlive (t : EmitTarget)
  | netSend (jid : String)
  | reply (r : SendResult)
deriving DecidableEq

/-- Outcome of the Promise.race between the network send and the 25000 ms
timer: the send resolves first, the send rejects first with an error
message (an undefined message is modelled as the empty string, matching
its falsiness), or the timer fires first. -/
inductive NetOutcome where
  | ok
  | err (msg : String)
  | timeout
deriving DecidableEq

/-- Payload of a send_message request; number is undefined when the client
omits it. -/
structure MessageData where
  number : Option String
  message : String
deriving DecidableEq

/-- Payload of a send_pdf request. -/
structure PdfData where
  number : Option String
deriving DecidableEq

/-- Error string of the guard that rejects sends while globalSocket is
null (the SessionNotConnected error of the specification). -/
def notConnectedError : String := "WhatsApp no está conectado"

/-- Error string of the send_message timeout rejection (the SendTimeout
error of the specification, text variant). -/
def timeoutMessageError : String := "Timeout al enviar mensaje"

/-- Error string of the send_pdf timeout rejection (the SendTimeout error
of the specification, document variant). -/
def timeoutPdfError : String := "Timeout al enviar PDF"

/-- Error string replied when the PDF asset is absent (the ResourceMissing
error of the specification). -/
def pdfMissingError : String := "El archivo PDF no existe"

/-- Message of the TypeError raised by number.replace when the request
carries no number; it propagates to the outer catch of the handler. -/
def replaceOfUndefinedError : String :=
  "Cannot read properties of undefined (reading 'replace')"

/-- Fallback error string of the inner catch of send_message. -/
def sendMessageFallbackError : String := "Error al enviar mensaje"

/-- Fallback error string of the inner catch of send_pdf. -/
def sendPdfFallbackError : String := "Error al enviar PDF"

/-- Target normalization of index.js: strip every non-digit character and
append the WhatsApp recipient suffix. -/
def formatNumber (number : String) : String :=
  String.mk (number.data.filter Char.isDigit) ++ "@s.whatsapp.net"

/-- The send_message handler of index.js as a function from the current
globalSocket value (a handle id, or none for null), the request payload
and the raced network outcome to its ordered effects. -/
def sendMessageHandler (gs : Option Nat) (data : MessageData)
    (net : NetOutcome) : List Effect :=
  match gs with
  | none => [Effect.reply (SendResult.failure notConnectedError)]
  | some _ =>
    match data.number with
    | none => [Effect.reply (SendResult.failure replaceOfUndefinedError)]
    | some num =>
      Effect.keepAlive EmitTarget.requester ::
      Effect.netSend (formatNumber num) ::
      match net with
      | NetOutcome.ok =>
        [Effect.keepAlive EmitTarget.requester,
         Effect.reply (SendResult.success "Mensaje enviado correctamente")]
      | NetOutcome.err m =>
        [Effect.reply (SendResult.failure
          (if m.isEmpty then sendMessageFallbackError else m))]
      | NetOutcome.timeout =>
        [Effect.reply (SendResult.failure timeoutMessageError)]

/-- The send_pdf handler of index.js: same shape as sendMessageHandler
plus the fs.existsSync check on the PDF asset, which runs after number
formatting and before the first keep_alive and the network dispatch. -/
def sendPdfHandler (gs : Option Nat) (data : PdfData) (pdfExists : Bool)
    (net : NetOutcome) : List Effect :=
  match gs with
  | none => [Effect.reply (SendResult.failure notConnectedError)]
  | some _ =>
    match data.number with
    | none => [Effect.reply (SendResult.failure replaceOfUndefinedError)]
    | some num =>
      if pdfExists then
        Effect.keepAlive EmitTarget.requester ::
        Effect.netSend (formatNumber num) ::
        match net with
        | NetOutcome.ok =>
          [Effect.keepAlive EmitTarget.requester,
           Effect.reply (SendResult.success "PDF enviado correctamente")]
        | NetOutcome.err m =>
          [Effect.reply (SendResult.failure
            (if m.isEmpty then sendPdfFallbackError else m))]
        | NetOutcome.timeout =>
          [Effect.reply (SendResult.failure timeoutPdfError)]
      else
        [Effect.reply (SendResult.failure pdfMissingError)]

/-- The callback invocations of an effect list, in order. -/
def replies (effects : List Effect) : List SendResult :=
  effects.filterMap fun e =>
    match e with
    | Effect.reply r => some r
    | _ => none

/-- Number of keep_alive emits in an effect list. -/
def keepAliveCount (effects : List Effect) : Nat :=
  effects.countP fun e =>
    match e with
    | Effect.keepAlive _ => true
    | _ => false

/-- Whether an effect list contains a dispatch to the network layer. -/
def contactsNetwork (effects : List Effect) : Bool :=
  effects.any fun e =>
    match e with
    | Effect.netSend _ => true
    | _ => false

/-- Reply object of the check_status handler. -/
structure StatusReply where
  connected : Bool
  status : String
deriving DecidableEq

/-- The check_status handler of index.js: both fields are computed from
the nullness of globalSocket (connected is the double negation, status
the conditional). -/
def checkStatusHandler (gs : Option Nat) : StatusReply :=
  { connected := gs.isSome,
    status := match gs with
      | some _ => "connected"
      | none => "disconnected" }

/-- Broadcast emit (io.emit, delivered to every connected client) issued
by the connection.update handler. -/
inductive Emit where
  | qrCode (token : String)
  | connectionStatus (status : String)
deriving DecidableEq

/-- The Boom output object of a Baileys disconnect error; statusCode may
be absent. -/
structure BoomOutput where
  statusCode : Option Nat
deriving DecidableEq

/-- The error object inside lastDisconnect; output may be absent. -/
structure BoomError where
  output : Option BoomOutput
deriving DecidableEq

/-- The lastDisconnect record of a connection.update event; its error
field may itself be undefined (the optional chaining in index.js guards
it). -/
structure LastDisconnect where
  error : Option BoomError
deriving DecidableEq

/-- A connection.update event as destructured by the handler. Every field
may be absent. -/
structure ConnectionUpdate where
  connection : Option String
  lastDisconnect : Option LastDisconnect
  qr : Option String
deriving DecidableEq

/-- Numeric value of DisconnectReason.loggedOut in the Baileys library. -/
def loggedOutCode : Nat := 401

/-- The optional chain (lastDisconnect.error)?.output?.statusCode,
evaluated on an already-present lastDisconnect record. -/
def ldStatusCode (ld : LastDisconnect) : Option Nat :=
  (ld.error.bind BoomError.output).bind BoomOutput.statusCode

/-- Effects of one run of the connection.update handler: the broadcast
emits in order, and whether connectToWhatsApp was invoked again (the
reconnect, which re-enters the Connecting phase). -/
structure UpdateOutcome where
  emits : List Emit
  reconnect : Bool
deriving DecidableEq

/-- The connection.update handler of index.js. The qr emit happens first
when qr is truthy. On connection close the handler reads
lastDisconnect.error without guarding lastDisconnect itself, so a close
event without that record raises a TypeError (modelled as Except.error)
and the rest of the handler is skipped. -/
def handleConnectionUpdate (u : ConnectionUpdate) :
    Except String UpdateOutcome :=
  let qrEmits : List Emit :=
    match jsTruthy u.qr with
    | some token => [Emit.qrCode token]
    | none => []
  if u.connection = some "close" then
    match u.lastDisconnect with
    | none => Except.error "TypeError: Cannot read properties of undefined (reading 'error')"
    | some ld =>
      let shouldReconnect : Bool :=
        if ldStatusCode ld = some loggedOutCode then false else true
      Except.ok { emits := qrEmits ++ [Emit.connectionStatus "disconnected"],
                  reconnect := shouldReconnect }
  else if u.connection = some "open" then
    Except.ok { emits := qrEmits ++ [Emit.connectionStatus "connected"],
                reconnect := false }
  else
    Except.ok { emits := qrEmits, reconnect := false }

/-- Whether the handler ended in a raised exception. -/
def raisesError (r : Except String UpdateOutcome) : Bool :=
  match r with
  | Except.error _ => true
  | Except.ok _ => false

/-- Session states of the specification state machine (section 4.1). -/
inductive SessionState where
  | Disconnected
  | Connecting
  | AwaitingChallenge
  | Connected
deriving DecidableEq

/-- Joint state of the gateway: the specification-level session state
(the code broadcasts connection_status connected / disconnected exactly
at the opened / closed transitions, and the qr emit marks the challenge
phase) together with the globalSocket variable of index.js (none models
null, some h an assigned socket handle). -/
structure GatewayState where
  sessionState : SessionState
  globalSocket : Option Nat
deriving DecidableEq

/-- Lifecycle events observed by the gateway process: connectToWhatsApp
starting (it assigns globalSocket before any connection exists), a qr
challenge, the connection opening, and the connection closing with the
optional status code of the disconnect error. -/
inductive LifecycleEvent where
  | startConnect (h : Nat)
  | qrReceived
  | opened
  | closed (statusCode : Option Nat)
deriving DecidableEq

/-- One lifecycle transition. connectToWhatsApp sets globalSocket := sock
(line 184 of index.js); no other event touches globalSocket — in
particular the close branch never resets it to null. -/
def step (s : GatewayState) : LifecycleEvent → GatewayState
  | LifecycleEvent.startConnect h =>
    { sessionState := SessionState.Connecting, globalSocket := some h }
  | LifecycleEvent.qrReceived =>
    { s with sessionState := SessionState.AwaitingChallenge }
  | LifecycleEvent.opened =>
    { s with sessionState := SessionState.Connected }
  | LifecycleEvent.closed _ =>
    { s with sessionState := SessionState.Disconnected }

/-- Run a trace of lifecycle events. -/
def run (s : GatewayState) : List LifecycleEvent → GatewayState
  | [] => s
  | e :: es => run (step s e) es

/-- Process start state: no session, globalSocket = null (line 30). -/
def initState : GatewayState :=
  { sessionState := SessionState.Disconnected, globalSocket := none }

/-- Whether a lifecycle event is a connectToWhatsApp start. -/
def isStart : LifecycleEvent → Bool
  | LifecycleEvent.startConnect _ => true
  | _ => false

/-- The key of an inbound Baileys message. -/
structure MessageKey where
  remoteJid : String
  fromMe : Bool
deriving DecidableEq

/-- The extendedTextMessage part of a message payload. -/
structure ExtendedTextMessage where
  text : Option String
deriving DecidableEq

/-- The imageMessage part of a message payload. -/
structure ImageMessage where
  caption : Option String
deriving DecidableEq

/-- The message.message payload object: the three fields the handler
reads, plus the ordered key list of the JavaScript object (used only for
Object.keys(message.message)[0]). -/
structure MessageContent where
  conversation : Option String
  extendedTextMessage : Option ExtendedTextMessage
  imageMessage : Option ImageMessage
  keys : List String
deriving DecidableEq

/-- An element of the messages array of a messages.upsert event; message
is null for payload-less events, messageTimestamp may be absent. -/
structure RawMessage where
  key : MessageKey
  message : Option MessageContent
  pushName : Option String
  messageTimestamp : Option Nat
deriving DecidableEq

/-- The new_message record broadcast for an inbound message (field from
of the code is named fromJid here because from is reserved in Lean). -/
structure NewMessage where
  fromJid : String
  sender : String
  message : String
  timestamp : Nat
  type : Option String
deriving DecidableEq

/-- Body derivation of the upsert handler: conversation, else
extendedTextMessage.text, else imageMessage.caption, else the multimedia
marker — each step skipped when the field is absent or empty (JavaScript
falsiness of the chained expression). -/
def deriveBody (c : MessageContent) : String :=
  match jsTruthy c.conversation with
  | some t => t
  | none =>
    match jsTruthy (c.extendedTextMessage.bind ExtendedTextMessage.text) with
    | some t => t
    | none =>
      match jsTruthy (c.imageMessage.bind ImageMessage.caption) with
      | some t => t
      | none => "Mensaje multimedia"

/-- The new_message record built for one inbound message with payload c;
now models Date.now() for the falsy-timestamp fallback. -/
def buildNewMessage (now : Nat) (m : RawMessage) (c : MessageContent) :
    NewMessage :=
  { fromJid := m.key.remoteJid,
    sender :=
      match jsTruthy m.pushName with
      | some p => p
      | none => m.key.remoteJid.takeWhile (fun ch => ch ≠ '@'),
    message := deriveBody c,
    timestamp :=
      match m.messageTimestamp with
      | some t => if t = 0 then now else t * 1000
      | none => now,
    type := c.keys.head? }

/-- The messages.upsert handler of index.js: for each message, skip when
the payload is null, then skip when key.fromMe, else broadcast the built
new_message record. -/
def processUpsert (now : Nat) (msgs : List RawMessage) : List NewMessage :=
  msgs.filterMap fun m =>
    match m.message with
    | none => none
    | some c =>
      if m.key.fromMe then none
      else some (buildNewMessage now m c)

/-- The per-send deadline of the Promise.race timer in index.js. -/
def sendTimeoutMs : Nat := 25000

/-- Whether every keep_alive emit of an effect list is addressed to the
given target. -/
def keepAlivesOnlyTo (t : EmitTarget) (effects : List Effect) : Bool :=
  effects.all fun e =>
    match e with
    | Effect.keepAlive t2 => t2 == t
    | _ => true

/-- A connection.update close event whose disconnect error carries the
loggedOut status code. -/
def closeLoggedOutUpdate : ConnectionUpdate :=
  { connection := some "close",
    lastDisconnect := some { error := some { output := some { statusCode := some 401 } } },
    qr := none }

/-- Payload of an inbound event with no text, no caption, and an image
attachment. -/
def exampleImageContent : MessageContent :=
  { conversation := none,
    extendedTextMessage := none,
    imageMessage := some { caption := none },
    keys := ["imageMessage"] }

/-- An inbound message from another account carrying only an image. -/
def exampleImageMessage : RawMessage :=
  { key := { remoteJid := "573143604303@s.whatsapp.net", fromMe := false },
    message := some exampleImageContent,
    pushName := some "Juan",
    messageTimestamp := some 1700000000 }

/-- C7: every send_message and send_pdf call is answered exactly once via
the request callback — on every control path of the handler (no session
handle, malformed request, missing asset, network success, network
failure, timeout) the callback fires, and on no path does it fire twice. -/
theorem send_handlers_reply_exactly_once (gs : Option Nat) (d : MessageData)
    (pd : PdfData) (ex : Bool) (net : NetOutcome) :
    (replies (sendMessageHandler gs d net)).length = 1 ∧
    (replies (sendPdfHandler gs pd ex net)).length = 1 := by
  obtain ⟨n1, m1⟩ := d
  obtain ⟨n2⟩ := pd
  constructor
  · cases gs <;> cases n1 <;> cases net <;> rfl
  · cases gs <;> cases n2 <;> cases ex <;> cases net <;> rfl

/-- C4: when the raced network operation does not resolve within the
configured 25000 ms deadline, the one and only reply delivered to the
caller is the SendTimeout failure (the timeout rejection of the
corresponding Promise.race), for send_message and send_pdf alike. -/
theorem send_timeout_replies_once (h : Nat) (num msg : String) :
    sendTimeoutMs = 25000 ∧
    replies (sendMessageHandler (some h) { number := some num, message := msg }
        NetOutcome.timeout) = [SendResult.failure timeoutMessageError] ∧
    replies (sendPdfHandler (some h) { number := some num } true
        NetOutcome.timeout) = [SendResult.failure timeoutPdfError] :=
  ⟨rfl, rfl, rfl⟩

/-- C6: a send_pdf request (with a session handle assigned and a number
present, so that the handler reaches the asset check) issued while the
PDF asset is absent is answered with the ResourceMissing failure and
produces no dispatch to the network layer, whatever the network outcome
parameter would have been: the existsSync check runs before dispatch. -/
theorem send_pdf_missing_asset (h : Nat) (num : String) (net : NetOutcome) :
    sendPdfHandler (some h) { number := some num } false net
      = [Effect.reply (SendResult.failure pdfMissingError)] ∧
    contactsNetwork (sendPdfHandler (some h) { number := some num } false net)
      = false :=
  ⟨rfl, rfl⟩

/-- C10: every check_status reply satisfies connected = (status is the
string connected): both fields are computed from the same nullness test
of globalSocket, so no reply pairs connected true with status
disconnected or connected false with status connected. -/
theorem check_status_fields_consistent (gs : Option Nat) :
    (checkStatusHandler gs).connected = true ↔
      (checkStatusHandler gs).status = "connected" := by
  cases gs with
  | none => decide
  | some h => simp [checkStatusHandler]

/-- C1 counterexample: after connectToWhatsApp has started (globalSocket
assigned) but before the connection opens, the session state is
Connecting — not Connected — yet a send_message request is not rejected
with SessionNotConnected: it is dispatched to the network layer and the
caller receives the network-layer failure instead. -/
theorem send_while_connecting_counterexample :
    (run initState [LifecycleEvent.startConnect 0]).sessionState
        ≠ SessionState.Connected ∧
    sendMessageHandler (run initState [LifecycleEvent.startConnect 0]).globalSocket
        { number := some "573143604303", message := "hola" }
        (NetOutcome.err "Connection Closed")
      = [Effect.keepAlive EmitTarget.requester,
         Effect.netSend "573143604303@s.whatsapp.net",
         Effect.reply (SendResult.failure "Connection Closed")] ∧
    SendResult.failure notConnectedError ∉
      replies (sendMessageHandler
        (run initState [LifecycleEvent.startConnect 0]).globalSocket
        { number := some "573143604303", message := "hola" }
        (NetOutcome.err "Connection Closed")) := by
  decide

/-- C1 amended: a send_message or send_pdf request is rejected with the
SessionNotConnected error, before any dispatch to the network layer,
exactly when globalSocket is null — that is, before the first
connectToWhatsApp call has assigned a handle — rather than whenever the
session state differs from Connected. -/
theorem send_rejected_when_no_handle (d : MessageData) (pd : PdfData)
    (ex : Bool) (net : NetOutcome) :
    sendMessageHandler none d net
      = [Effect.reply (SendResult.failure notConnectedError)] ∧
    sendPdfHandler none pd ex net
      = [Effect.reply (SendResult.failure notConnectedError)] :=
  ⟨rfl, rfl⟩

/-- C8 counterexample: a send_message dispatch that ends in timeout emits
exactly one keep_alive (the one before the dispatch); no keep_alive
follows the dispatch, so the signal is not emitted both before and after
every dispatch. -/
theorem keep_alive_after_dispatch_counterexample :
    sendMessageHandler (some 0)
        { number := some "573143604303", message := "hola" }
        NetOutcome.timeout
      = [Effect.keepAlive EmitTarget.requester,
         Effect.netSend "573143604303@s.whatsapp.net",
         Effect.reply (SendResult.failure timeoutMessageError)] ∧
    keepAliveCount (sendMessageHandler (some 0)
        { number := some "573143604303", message := "hola" }
        NetOutcome.timeout) = 1 := by
  decide

/-- C8 amended: every keep_alive emitted by a send_message or send_pdf
dispatch goes to the requesting client only (socket.emit, never io.emit);
one keep_alive precedes the dispatch as the first effect, and a second
one follows it only on the success path — failure and timeout paths emit
no post-dispatch keep_alive. -/
theorem keep_alive_requester_only (h : Nat) (num msg : String)
    (net : NetOutcome) :
    keepAlivesOnlyTo EmitTarget.requester
        (sendMessageHandler (some h) { number := some num, message := msg } net)
      = true ∧
    (sendMessageHandler (some h) { number := some num, message := msg } net).head?
      = some (Effect.keepAlive EmitTarget.requester) ∧
    keepAliveCount
        (sendMessageHandler (some h) { number := some num, message := msg } net)
      = (match net with | NetOutcome.ok => 2 | _ => 1) ∧
    keepAlivesOnlyTo EmitTarget.requester
        (sendPdfHandler (some h) { number := some num } true net) = true ∧
    (sendPdfHandler (some h) { number := some num } true net).head?
      = some (Effect.keepAlive EmitTarget.requester) ∧
    keepAliveCount (sendPdfHandler (some h) { number := some num } true net)
      = (match net with | NetOutcome.ok => 2 | _ => 1) := by
  cases net <;> exact ⟨rfl, rfl, rfl, rfl, rfl, rfl⟩

/-- The globalSocket variable of a run is null exactly when it started
null and no connectToWhatsApp start occurred: no lifecycle event — in
particular no close — ever resets it to null. -/
theorem run_globalSocket_none (tr : List LifecycleEvent) :
    ∀ s : GatewayState, ((run s tr).globalSocket = none ↔
      (s.globalSocket = none ∧ tr.all (fun e => !isStart e) = true)) := by
  induction tr with
  | nil => intro s; simp [run]
  | cons e es ih =>
    intro s
    cases e with
    | startConnect h => simp [run, step, isStart, ih]
    | qrReceived => simp [run, step, isStart, ih]
    | opened => simp [run, step, isStart, ih]
    | closed c => simp [run, step, isStart, ih]

/-- C2 counterexample: after a connect, an open and a loggedOut close,
the session is Disconnected (and, the close being loggedOut, no reconnect
is pending), yet check_status replies connected true with status
connected, because the close branch never resets globalSocket to null. -/
theorem check_status_after_close_counterexample :
    (run initState [LifecycleEvent.startConnect 0, LifecycleEvent.opened,
        LifecycleEvent.closed (some loggedOutCode)]).sessionState
      = SessionState.Disconnected ∧
    checkStatusHandler (run initState [LifecycleEvent.startConnect 0,
        LifecycleEvent.opened,
        LifecycleEvent.closed (some loggedOutCode)]).globalSocket
      = { connected := true, status := "connected" } := by
  decide

/-- C2 amended: check_status always succeeds without touching the
network (it is a pure function of the current globalSocket value), but
its reply tracks only whether a connectToWhatsApp start has ever
assigned a handle, not the latest state transition: the reply is
connected false with status disconnected exactly on traces with no
connect start, and connected true with status connected on every other
trace, close transitions included. -/
theorem check_status_reflects_handle (tr : List LifecycleEvent) :
    (checkStatusHandler (run initState tr).globalSocket
        = { connected := false, status := "disconnected" } ↔
      tr.all (fun e => !isStart e) = true) ∧
    (checkStatusHandler (run initState tr).globalSocket
        = { connected := true, status := "connected" } ↔
      tr.all (fun e => !isStart e) = false) := by
  have h : ((run initState tr).globalSocket = none ↔
      tr.all (fun e => !isStart e) = true) := by
    simpa [initState] using run_globalSocket_none tr initState
  cases hgs : (run initState tr).globalSocket with
  | none =>
    have hall : tr.all (fun e => !isStart e) = true := h.mp hgs
    refine ⟨?_, ?_⟩ <;> simp [checkStatusHandler, hgs, hall]
  | some h2 =>
    have hall : tr.all (fun e => !isStart e) = false := by
      cases hb : tr.all (fun e => !isStart e) with
      | false => rfl
      | true =>
        have hnone := h.mpr hb
        rw [hgs] at hnone
        exact Option.noConfusion hnone
    refine ⟨?_, ?_⟩ <;> simp [checkStatusHandler, hgs, hall]

/-- C3: for every connection close event that carries a lastDisconnect
record, the handler succeeds, broadcasts the disconnected status (the
Disconnected transition), and re-invokes connectToWhatsApp (the
Connecting transition) exactly when the disconnect status code differs
from loggedOut; on loggedOut it issues no reconnect. -/
theorem close_reconnect_policy (u : ConnectionUpdate) (ld : LastDisconnect)
    (h1 : u.connection = some "close") (h2 : u.lastDisconnect = some ld) :
    ∃ r, handleConnectionUpdate u = Except.ok r ∧
      Emit.connectionStatus "disconnected" ∈ r.emits ∧
      (r.reconnect = false ↔ ldStatusCode ld = some loggedOutCode) := by
  refine ⟨{ emits := (match jsTruthy u.qr with
              | some token => [Emit.qrCode token]
              | none => []) ++ [Emit.connectionStatus "disconnected"],
            reconnect :=
              if ldStatusCode ld = some loggedOutCode then false else true },
          ?_, ?_, ?_⟩
  · simp [handleConnectionUpdate, h1, h2]
  · simp
  · by_cases hc : ldStatusCode ld = some loggedOutCode <;> simp [hc]

/-- C3 witness: a loggedOut close with a full disconnect record is
handled successfully, broadcasts disconnected, and issues no reconnect. -/
theorem close_reconnect_policy_witness :
    ∃ r, handleConnectionUpdate closeLoggedOutUpdate = Except.ok r ∧
      Emit.connectionStatus "disconnected" ∈ r.emits ∧
      (r.reconnect = false ↔
        ldStatusCode { error := some { output := some { statusCode := some 401 } } }
          = some loggedOutCode) :=
  close_reconnect_policy closeLoggedOutUpdate
    { error := some { output := some { statusCode := some 401 } } } rfl rfl

/-- C9: the connection.update handler raises a TypeError exactly on a
close event that lacks the lastDisconnect record — the reconnect decision
dereferences lastDisconnect.error without guarding lastDisconnect itself,
while every other event shape is handled without error. -/
theorem close_handler_total_iff_record (u : ConnectionUpdate) :
    raisesError (handleConnectionUpdate u) = true ↔
      (u.connection = some "close" ∧ u.lastDisconnect = none) := by
  obtain ⟨conn, ld, qr⟩ := u
  by_cases h1 : conn = some "close"
  · cases ld with
    | none => simp [handleConnectionUpdate, raisesError, h1]
    | some l => simp [handleConnectionUpdate, raisesError, h1]
  · simp only [handleConnectionUpdate]
    rw [if_neg (by simpa using h1)]
    split <;> simp [raisesError, h1]

/-- C5: the messages.upsert handler skips events without payload and
events from the own account; for every broadcast event the body follows
the precedence plain text (conversation, else extended text), else image
caption, else the multimedia marker, where an absent or empty field falls
through; an event with no text, no caption and an image payload yields
the marker. -/
theorem upsert_body_precedence (now : Nat) (m : RawMessage)
    (c : MessageContent) :
    (m.message = none → processUpsert now [m] = []) ∧
    (m.key.fromMe = true → processUpsert now [m] = []) ∧
    (m.message = some c → m.key.fromMe = false →
      (processUpsert now [m]).map NewMessage.message = [deriveBody c]) ∧
    (∀ t, jsTruthy c.conversation = some t → deriveBody c = t) ∧
    (∀ t, jsTruthy c.conversation = none →
      jsTruthy (c.extendedTextMessage.bind ExtendedTextMessage.text) = some t →
      deriveBody c = t) ∧
    (∀ t, jsTruthy c.conversation = none →
      jsTruthy (c.extendedTextMessage.bind ExtendedTextMessage.text) = none →
      jsTruthy (c.imageMessage.bind ImageMessage.caption) = some t →
      deriveBody c = t) ∧
    (jsTruthy c.conversation = none →
      jsTruthy (c.extendedTextMessage.bind ExtendedTextMessage.text) = none →
      jsTruthy (c.imageMessage.bind ImageMessage.caption) = none →
      deriveBody c = "Mensaje multimedia") := by
  refine ⟨?_, ?_, ?_, ?_, ?_, ?_, ?_⟩
  · intro h; simp [processUpsert, h]
  · intro h; cases hm : m.message <;> simp [processUpsert, h, hm]
  · intro h1 h2; simp [processUpsert, h1, h2, buildNewMessage]
  · intro t h; simp [deriveBody, h]
  · intro t h1 h2; simp [deriveBody, h1, h2]
  · intro t h1 h2 h3; simp [deriveBody, h1, h2, h3]
  · intro h1 h2 h3; simp [deriveBody, h1, h2, h3]

/-- C5 witness: an inbound event from another account with no text, no
caption and an image payload is broadcast with the multimedia marker as
its body. -/
theorem upsert_body_precedence_witness :
    (processUpsert 0 [exampleImageMessage]).map NewMessage.message
      = ["Mensaje multimedia"] := by
  have h := upsert_body_precedence 0 exampleImageMessage exampleImageContent
  have h3 := h.2.2.1 rfl rfl
  have h7 := h.2.2.2.2.2.2 rfl rfl rfl
  rw [h3, h7]

end WhaApi
